import Mathlib

/-!
Verification of the mapa-leiloeiros extraction/classification pipeline.

The Python sources are shallowly embedded: dict-shaped records become
structures with `Option String` fields (Python `None` is `none`, and the
truthiness test `if x:` treats both `None` and `""` as false), `str`
methods become the corresponding executable functions on `String`, and
the small anchored regular expressions used by the extractors become
explicit character-list scanners.
-/

namespace MapaLeiloeiros

/-- Truthiness of an optional string field, as Python evaluates `if x:`:
`None` and the empty string are falsy, every other string is truthy. -/
def truthy : Option String → Bool
  | none => false
  | some s => !(s == "")

/-- Contiguous-sublist test on character lists. -/
def listIsSub (needle : List Char) : List Char → Bool
  | [] => needle.isEmpty
  | c :: rest => needle.isPrefixOf (c :: rest) || listIsSub needle rest

/-- Python's substring test `tok in s`. -/
def strContains (s tok : String) : Bool :=
  listIsSub tok.data s.data

/-- Python `str.lower()`, character-wise. -/
def pyLower (s : String) : String :=
  String.mk (s.data.map Char.toLower)

/-- Python `str.upper()`, character-wise. -/
def pyUpper (s : String) : String :=
  String.mk (s.data.map Char.toUpper)

/-- Python `str.strip()`: drop leading and trailing whitespace. -/
def pyStrip (s : String) : String :=
  String.mk ((s.data.dropWhile Char.isWhitespace).reverse.dropWhile Char.isWhitespace).reverse

/-- Python `s.endswith(t)`. -/
def strEndsWith (s t : String) : Bool :=
  t.data.reverse.isPrefixOf s.data.reverse

/-- Splitting a character list at every occurrence of a separator. -/
def splitCharAux (c : Char) : List Char → List (List Char)
  | [] => [[]]
  | x :: rest =>
    match splitCharAux c rest with
    | [] => [[]]
    | h :: t => if x == c then [] :: h :: t else (x :: h) :: t

/-- Python `s.split(sep)` for a one-character separator: split at every
occurrence, keeping empty pieces. -/
def splitOnChar (c : Char) (s : String) : List String :=
  (splitCharAux c s.data).map String.mk

/-- Record shape used by the ranking scripts (`process_lista_final.py`,
`rank_everyone.py`): a dict with optional site/email/telefone/matricula
fields, a tech score and a category. -/
structure Leiloeiro where
  nome : String := ""
  matricula : Option String := none
  cidade : Option String := none
  site : Option String := none
  email : Option String := none
  telefone : Option String := none
  tech_score : Int := 0
  categoria : String := ""
deriving DecidableEq

/-- Site-token deny list of `process_lista_final.calcular_tech_score`. -/
def email_domains_final : List String :=
  ["outlook", "gmail", "hotmail", "yahoo", "uol", "bol", "terra", "ig"]

/-- Site-token deny list of `rank_everyone.calcular_tech_score`. -/
def email_domains_everyone : List String :=
  ["outlook", "gmail", "hotmail", "yahoo", "uol", "bol", "terra", "ig", "me.com"]

/-- Site block of `process_lista_final.calcular_tech_score` (lines 19-30):
a valid site is worth 30 points, plus 20 more when no token of the deny
list occurs as a substring of the lower-cased site. -/
def siteScore (tokens : List String) (site : Option String) : Int :=
  match site with
  | none => 0
  | some s =>
    if !(s == "") && !(s == "null") && !(s == "Não Identificado") then
      30 + (if !(tokens.any fun d => strContains (pyLower s) d) then 20 else 0)
    else 0

/-- Email block of `process_lista_final.calcular_tech_score` (lines 32-43):
a valid email is worth 10 points, plus 20 more when none of the personal
markers occurs as a substring of the lower-cased email. -/
def emailScore (marks : List String) (email : Option String) : Int :=
  match email with
  | none => 0
  | some e =>
    if !(e == "") && !(e == "null") then
      10 + (if !(marks.any fun m => strContains (pyLower e) m) then 20 else 0)
    else 0

/-- Phone/matricula block: a truthy non-`'null'` field is worth 10 points. -/
def fieldScore (v : Option String) : Int :=
  if truthy v && !(v.getD "" == "null") then 10 else 0

/-- Personal-email substring markers tested by
`process_lista_final.calcular_tech_score` (lines 40-41). -/
def email_marks_final : List String :=
  ["@gmail.", "@hotmail.", "@yahoo.", "@outlook."]

/-- Personal-email substring markers tested by
`rank_everyone.calcular_tech_score` (lines 37-39). -/
def email_marks_everyone : List String :=
  ["@gmail.", "@hotmail.", "@yahoo.", "@outlook.", "@uol.", "@bol."]

/-- `calcular_tech_score` from `process_lista_final.py` (lines 15-55). -/
def calcular_tech_score (l : Leiloeiro) : Int :=
  min (siteScore email_domains_final l.site
       + emailScore email_marks_final l.email
       + fieldScore l.telefone
       + fieldScore l.matricula) 100

/-- `calcular_tech_score` from `rank_everyone.py` (lines 12-53); it only
differs from the `process_lista_final.py` variant in the token lists. -/
def calcular_tech_score_everyone (l : Leiloeiro) : Int :=
  min (siteScore email_domains_everyone l.site
       + emailScore email_marks_everyone l.email
       + fieldScore l.telefone
       + fieldScore l.matricula) 100

/-- Per-record body of `classificar` from `process_lista_final.py`
(lines 78-97). -/
def classificar_step (l : Leiloeiro) : Leiloeiro :=
  if !(truthy l.site) then { l with categoria := "Offline (Sem Site)" }
  else if l.tech_score > 80 then { l with categoria := "Gigante (Portal)" }
  else if l.tech_score >= 40 then { l with categoria := "Médio (Consolidado)" }
  else { l with categoria := "Pequeno (Com Site)" }

/-- `classificar` from `process_lista_final.py`: classify every record. -/
def classificar (ls : List Leiloeiro) : List Leiloeiro :=
  ls.map classificar_step

/-- Per-record body of `classificar_inclusivo` from `rank_everyone.py`
(lines 76-96): a record without a truthy site gets the offline category
and has its tech score overwritten to 0. -/
def classificar_inclusivo_step (l : Leiloeiro) : Leiloeiro :=
  if !(truthy l.site) then
    { l with categoria := "Offline/Sem Site", tech_score := 0 }
  else if l.tech_score > 80 then { l with categoria := "Gigante (Portal)" }
  else if l.tech_score >= 40 then { l with categoria := "Médio (Consolidado)" }
  else { l with categoria := "Pequeno (Com Site)" }

/-- `classificar_inclusivo` from `rank_everyone.py`. -/
def classificar_inclusivo (ls : List Leiloeiro) : List Leiloeiro :=
  ls.map classificar_inclusivo_step

/-- Generic-domain deny list of `InclusiveRanker.is_corporate_email` in
`rank_final.py` (lines 45-50). -/
def generic_domains : List String :=
  ["gmail.com", "hotmail.com", "outlook.com", "yahoo.com",
   "uol.com.br", "bol.com.br", "terra.com.br", "ig.com.br",
   "globo.com", "live.com", "msn.com", "aol.com",
   "gmail.com.br", "hotmail.com.br", "yahoo.com.br"]

/-- Python `email.split('@')[-1]`. -/
def emailDomain (email : String) : String :=
  (splitOnChar '@' email).getLastD ""

/-- `InclusiveRanker.is_corporate_email` from `rank_final.py` (lines 40-53):
the lower-cased domain must not end with any deny-list entry. -/
def is_corporate_email (email : String) : Bool :=
  if email == "" then false
  else !(generic_domains.any fun g => strEndsWith (pyLower (emailDomain email)) g)

/-- `InclusiveRanker.extract_site_from_email` from `rank_final.py`
(lines 55-82). -/
def extract_site_from_email (email : String) (existing_site : Option String) : String :=
  if truthy existing_site then existing_site.getD ""
  else if email == "" then "Não Identificado"
  else if !(is_corporate_email email) then "Não Identificado"
  else
    let parts := splitOnChar '.' (emailDomain email)
    if parts.length >= 2 then
      if parts.getLastD "" == "br" && parts.length >= 3 then
        "https://www." ++ String.intercalate "." (parts.drop (parts.length - 3))
      else
        "https://www." ++ String.intercalate "." (parts.drop (parts.length - 2))
    else "Não Identificado"

/-- `InclusiveRanker.calculate_tech_score` from `rank_final.py`
(lines 84-116). -/
def calculate_tech_score (email site : String) : Int :=
  if email == "" then 0
  else if !(is_corporate_email email) then min 5 100
  else
    min (40 +
      (if !(site == "") && !(site == "Não Identificado") then
        30 + (if strContains site ".com.br" then 20 else 10)
      else 0)) 100

/-- `InclusiveRanker.determine_category` from `rank_final.py`
(lines 118-134). -/
def determine_category (site : String) (tech_score : Int) : String :=
  if site == "Não Identificado" || site == "" then "Offline/Sem Site"
  else if tech_score > 80 then "Gigante (Portal)"
  else if tech_score >= 40 then "Médio (Consolidado)"
  else "Pequeno (Com Site)"

/-- Candidate record as produced by the OCR extractors: a dict with a
name, an email (empty string when absent), an optional site, the source
page and the producing strategy. -/
structure Registro where
  nome : String := ""
  email : String := ""
  site : Option String := none
  pagina : Nat := 0
  fonte : String := ""
deriving DecidableEq

/-- Deduplication key of `limpeza_final_ocr.deduplicate_data` (line 277):
the literal f-string `f"{nome}_{email}"`. -/
def record_key (r : Registro) : String :=
  r.nome ++ "_" ++ r.email

/-- Loop of the `deduplicate_data` functions: walk the list keeping a set
of seen keys and keep each record whose key was not seen before. -/
def dedup_go (k : Registro → String) (seen : List String) : List Registro → List Registro
  | [] => []
  | r :: rest =>
    if k r ∈ seen then dedup_go k seen rest
    else r :: dedup_go k (k r :: seen) rest

/-- `deduplicate_data` from `limpeza_final_ocr.py` (lines 266-285), keyed
by the raw `nome ++ "_" ++ email` string. -/
def deduplicate_data (data : List Registro) : List Registro :=
  dedup_go record_key [] data

/-- `deduplicate_data` from `pdf_clean_ocr.py` (lines 207-221), keyed by
the raw name alone. -/
def deduplicate_data_clean_ocr (data : List Registro) : List Registro :=
  dedup_go (fun r => r.nome) [] data

/-- Helper loop for `pyWords`: accumulate the current word reversed. -/
def pyWordsAux : List Char → List Char → List String
  | acc, [] => if acc.isEmpty then [] else [String.mk acc.reverse]
  | acc, c :: rest =>
    if c.isWhitespace then
      if acc.isEmpty then pyWordsAux [] rest
      else String.mk acc.reverse :: pyWordsAux [] rest
    else pyWordsAux (c :: acc) rest

/-- Python `str.split()` with no argument: split on whitespace runs and
drop empty pieces. -/
def pyWords (s : String) : List String :=
  pyWordsAux [] s.data

/-- Python `str.capitalize()`: first character upper-cased, the rest
lower-cased. -/
def pyCapitalize (w : String) : String :=
  match w.data with
  | [] => ""
  | c :: rest => String.mk (c.toUpper :: rest.map Char.toLower)

/-- Python `str.islower()` restricted to ASCII: at least one lower-case
letter and no upper-case letter. -/
def pyIslower (s : String) : Bool :=
  s.data.any Char.isLower && !(s.data.any Char.isUpper)

/-- Accent folding for the Portuguese characters that occur in the data,
used only by the spec-level normalized key. -/
def stripAccent (c : Char) : Char :=
  if c == 'Á' || c == 'À' || c == 'Â' || c == 'Ã' then 'A'
  else if c == 'É' || c == 'Ê' then 'E'
  else if c == 'Í' then 'I'
  else if c == 'Ó' || c == 'Ô' || c == 'Õ' then 'O'
  else if c == 'Ú' || c == 'Ü' then 'U'
  else if c == 'Ç' then 'C'
  else if c == 'á' || c == 'à' || c == 'â' || c == 'ã' then 'a'
  else if c == 'é' || c == 'ê' then 'e'
  else if c == 'í' then 'i'
  else if c == 'ó' || c == 'ô' || c == 'õ' then 'o'
  else if c == 'ú' || c == 'ü' then 'u'
  else if c == 'ç' then 'c'
  else c

/-- Modelled from the spec: the name half of a `NormalizedKey` — the
upper-cased, accent-insensitive, whitespace-collapsed name (it follows
`normalize_name` in `enrich_clean_data.py`, which collapses whitespace,
strips and upper-cases, with accent folding added as the spec asks). -/
def normalize_nome (s : String) : String :=
  String.mk ((String.intercalate " " (pyWords s)).data.map fun c => stripAccent c.toUpper)

/-- Modelled from the spec: the `NormalizedKey` of a candidate record,
the normalized name joined with the lower-cased email. -/
def normalized_key (r : Registro) : String :=
  normalize_nome r.nome ++ "|" ++ pyLower r.email

/-- Character class `[\d\s\-\./]` of the trailing-junk pattern in
`clean_name` / `clean_nome`. -/
def trailingJunkChar (c : Char) : Bool :=
  c.isDigit || c.isWhitespace || c == '-' || c == '.' || c == '/'

/-- Python `re.sub(r'[\d\s\-\./]+$', '', s)`: remove the maximal trailing
run of digits, whitespace, hyphens, dots and slashes. -/
def sub_trailing_junk (s : String) : String :=
  String.mk (s.data.reverse.dropWhile trailingJunkChar).reverse

/-- Python `re.sub(r'^[_\W]+', '', s)`: the class `[_\W]` is exactly the
non-alphanumeric characters, so remove the maximal leading run of them
(ASCII reading of `\w`). -/
def sub_leading_junk (s : String) : String :=
  String.mk (s.data.dropWhile (fun c => !c.isAlphanum))

/-- Full-match test for the anchored suffix pattern
`\s*\d+[/\-]?\d*\s*` of `re.sub(r'\s*\d+[/\-]?\d*\s*$', '', line)`; the
three character classes are pairwise disjoint, so greedy consumption
decides the match. -/
def matricula_suffix_match (cs : List Char) : Bool :=
  let cs1 := cs.dropWhile Char.isWhitespace
  let ds := cs1.takeWhile Char.isDigit
  if ds.isEmpty then false
  else
    let cs2 := cs1.drop ds.length
    let cs3 := match cs2 with
      | c :: rest => if c == '/' || c == '-' then rest else cs2
      | [] => []
    ((cs3.dropWhile Char.isDigit).dropWhile Char.isWhitespace).isEmpty

/-- Python `re.sub(r'\s*\d+[/\-]?\d*\s*$', '', s)`: cut the string at the
leftmost position whose whole suffix matches the pattern. -/
def sub_matricula_fim (s : String) : String :=
  match (List.range (s.data.length + 1)).find?
      (fun i => matricula_suffix_match (s.data.drop i)) with
  | some i => String.mk (s.data.take i)
  | none => s

/-- Cleaning steps of `clean_name` in `limpeza_final_ocr.py` before the
capitalization decision: drop trailing junk, drop leading junk, strip. -/
def clean_name_pre (s : String) : String :=
  pyStrip (sub_leading_junk (sub_trailing_junk s))

/-- `clean_name` from `limpeza_final_ocr.py` (lines 99-121): clean the
string, then title-case it word by word only when it is fully
lower-case. -/
def clean_name (s : String) : String :=
  if s == "" then ""
  else
    let n := clean_name_pre s
    if !(n == "") && pyIslower n then
      String.intercalate " " ((pyWords n).map pyCapitalize)
    else n

/-- Modelled from the spec: the capitalization policy's title-casing —
capitalize each whitespace-separated word and rejoin with single
spaces. -/
def title_case_words (s : String) : String :=
  String.intercalate " " ((pyWords s).map pyCapitalize)

/-- Local-part character class of the email pattern
`[a-zA-Z0-9._%+-]+@[a-zA-Z0-9.-]+\.[a-zA-Z]{2,}`. -/
def localClass (c : Char) : Bool :=
  c.isAlpha || c.isDigit || c == '.' || c == '_' || c == '%' || c == '+' || c == '-'

/-- Domain character class `[a-zA-Z0-9.-]` of the email pattern. -/
def domClass (c : Char) : Bool :=
  c.isAlpha || c.isDigit || c == '.' || c == '-'

/-- Backtracking over the greedy `[a-zA-Z0-9.-]+\.[a-zA-Z]{2,}` tail of
the email pattern: try the dot at index `j`, `j-1`, ..., `1` of the
maximal domain-class run and require at least two letters after it;
return the number of characters matched after the `@`. -/
def tryDotIdx (run rest : List Char) : Nat → Option Nat
  | 0 => none
  | j + 1 =>
    if run.getD (j + 1) ' ' == '.' then
      let al := ((run.drop (j + 2)) ++ rest).takeWhile Char.isAlpha
      if al.length ≥ 2 then some ((j + 1) + 1 + al.length)
      else tryDotIdx run rest j
    else tryDotIdx run rest j

/-- Match of the email pattern anchored at the head of `cs`, returning
the match length; the local part is the maximal local-class run (the
following character must be `@`, which is outside the class, so no
backtracking arises there). -/
def matchEmailAt (cs : List Char) : Option Nat :=
  let lp := cs.takeWhile localClass
  if lp.isEmpty then none
  else
    match cs.drop lp.length with
    | '@' :: rest2 =>
      let run := rest2.takeWhile domClass
      match tryDotIdx run (rest2.drop run.length) (run.length - 1) with
      | some dlen => some (lp.length + 1 + dlen)
      | none => none
    | _ => none

/-- Python `re.search` for the email pattern: try every start position
from the left and return the first `(start, length)` match. -/
def searchEmail : List Char → Nat → Option (Nat × Nat)
  | [], _ => none
  | c :: rest, i =>
    match matchEmailAt (c :: rest) with
    | some len => some (i, len)
    | none => searchEmail rest (i + 1)

/-- Python `re.findall` for the email pattern: repeated non-overlapping
leftmost search. Fuel-based recursion; every match consumes at least one
character, so fuel equal to the list length is enough. -/
def findallEmailsAux : Nat → List Char → List String
  | 0, _ => []
  | fuel + 1, cs =>
    match searchEmail cs 0 with
    | none => []
    | some (start, len) =>
      String.mk ((cs.drop start).take len) ::
        findallEmailsAux fuel (cs.drop (start + len))

/-- All email-pattern matches in a string. -/
def findallEmails (s : String) : List String :=
  findallEmailsAux s.data.length s.data

/-- Candidate shape produced by `PDFDirectExtractor`. -/
structure Candidato where
  nome : String := ""
  email : String := ""
  email_corporativo : Bool := false
  site : String := ""
  fonte : String := ""
  linha_original : String := ""
deriving DecidableEq

/-- `PDFDirectExtractor.looks_like_address`: keyword containment on the
upper-cased text. -/
def looks_like_address (text : String) : Bool :=
  ["RUA", "AVENIDA", "AV.", "ALAMEDA", "TRAVESSA",
   "KM", "Nº", "N°", "S/N", "APTO", "SALA"].any
    (fun kw => strContains (pyUpper text) kw)

/-- Generic-domain deny list of `PDFDirectExtractor.is_corporate_email`. -/
def generic_domains_direct : List String :=
  ["gmail.com", "hotmail.com", "outlook.com", "yahoo.com",
   "uol.com.br", "bol.com.br", "terra.com.br", "ig.com.br",
   "globo.com", "live.com", "msn.com", "aol.com"]

/-- `PDFDirectExtractor.is_corporate_email`. -/
def is_corporate_email_direct (email : String) : Bool :=
  !(generic_domains_direct.any fun g => strEndsWith (pyLower (emailDomain email)) g)

/-- `PDFDirectExtractor.extract_site_from_email`. -/
def extract_site_from_email_direct (email : String) : String :=
  if !(is_corporate_email_direct email) then ""
  else
    let parts := splitOnChar '.' (emailDomain email)
    if parts.length >= 2 then
      if parts.getLastD "" == "br" && parts.length >= 3 then
        "https://www." ++ String.intercalate "." (parts.drop (parts.length - 3))
      else
        "https://www." ++ String.intercalate "." (parts.drop (parts.length - 2))
    else ""

/-- Per-line body of `PDFDirectExtractor.extract_leiloeiros_from_text`
(`pdf_direct_extractor.py`, lines 52-103): find the email pattern; the
text before the match, stripped of a trailing registration number, is
the name; a too-short or address-like name is replaced by the line's
first word. -/
def extract_leiloeiro_line (line0 : String) : Option Candidato :=
  let line := pyStrip line0
  if line == "" || line.length < 5 then none
  else
    match searchEmail line.data 0 with
    | none => none
    | some (start, len) =>
      let email := pyLower (String.mk ((line.data.drop start).take len))
      let nome_part := pyStrip (String.mk (line.data.take start))
      let nome1 := pyStrip (sub_matricula_fim nome_part)
      let nome :=
        if nome1.length < 3 || looks_like_address nome1 then
          (pyWords line).headD "N/A"
        else nome1
      let corp := is_corporate_email_direct email
      some { nome := nome
             email := email
             email_corporativo := corp
             site := if corp then extract_site_from_email_direct email else ""
             fonte := "pdf_direto"
             linha_original := String.mk (line.data.take 100) }

/-- `PDFDirectExtractor.extract_leiloeiros_from_text`: process every
line of the text, skipping lines that yield no candidate. -/
def extract_leiloeiros_from_text (text : String) : List Candidato :=
  (splitOnChar '\n' text).filterMap extract_leiloeiro_line

/-- `PDFGeometricOCRExtractor.clean_name`: drop leading junk, then
trailing junk, then strip. -/
def clean_name_geo (name : String) : String :=
  if name == "" then ""
  else pyStrip (sub_trailing_junk (sub_leading_junk name))

/-- Match of the digits, dash-or-slash, digits pattern anchored at the head of `cs`. -/
def numSepNumAt (cs : List Char) : Bool :=
  let ds := cs.takeWhile Char.isDigit
  if ds.isEmpty then false
  else
    match (cs.drop ds.length).dropWhile Char.isWhitespace with
    | c :: rest =>
      (c == '-' || c == '/') &&
        !((rest.dropWhile Char.isWhitespace).takeWhile Char.isDigit).isEmpty
    | [] => false

/-- Search for the digits, dash-or-slash, digits address pattern, viewed as a Bool: the
pattern matches at some position. -/
def hasNumSepNum : List Char → Bool
  | [] => false
  | c :: rest => numSepNumAt (c :: rest) || hasNumSepNum rest

/-- `PDFGeometricOCRExtractor.is_address`: street-keyword containment on
the upper-cased text, or a `number - number` token. -/
def is_address (text : String) : Bool :=
  (["RUA", "AVENIDA", "AV.", "ALAMEDA", "TRAVESSA",
    "KM", "Nº", "N°", "S/N", "APTO", "SALA", "ANDAR"].any
      (fun kw => strContains (pyUpper text) kw))
  || hasNumSepNum text.data

/-- Name-column lines of
`PDFGeometricOCRExtractor.extract_with_ocr_crop`: keep stripped lines
longer than 2 characters, remove a trailing registration number, and
keep the result when still longer than 2 characters. -/
def geo_names (left_text : String) : List String :=
  (splitOnChar '\n' left_text).filterMap fun line0 =>
    let line := pyStrip line0
    if !(line == "") && line.length > 2 then
      let clean_line := pyStrip (sub_matricula_fim line)
      if !(clean_line == "") && clean_line.length > 2 then some clean_line
      else none
    else none

/-- Name/email pairing loop of
`PDFGeometricOCRExtractor.extract_all_pages` (lines 120-148): clean each
name, filter addresses and short names, and assign emails round-robin by
the running count of accepted names. -/
def geo_pair (pagina : Nat) (emails : List String) : List String → Nat → List Registro
  | [], _ => []
  | name :: rest, cnt =>
    let cn := clean_name_geo name
    if !(cn == "") && cn.length ≥ 3 && !(is_address cn)
        && !(!(cn == "") && cn.data.all Char.isWhitespace) then
      { nome := cn
        email := emails.getD (cnt % emails.length) ""
        pagina := pagina
        fonte := "pdf_geometric_ocr" } :: geo_pair pagina emails rest (cnt + 1)
    else geo_pair pagina emails rest cnt

/-- Records contributed by one page of the geometric OCR extractor,
given the OCR text of its left (names) and right (emails) crops. -/
def geo_page_records (left right : String) (pagina : Nat) : List Registro :=
  geo_pair pagina ((findallEmails right).map pyLower) (geo_names left) 0

/-- One page of the geometric OCR run at the recognizer boundary: either
the OCR texts of the two crops, or an exception raised while processing
the page. -/
inductive PageOCR where
  | page (left_text right_text : String)
  | raises
deriving DecidableEq

/-- Page loop of `PDFGeometricOCRExtractor.extract_all_pages`
(lines 106-153): the `try` block wraps the whole loop, so an exception
on one page ends the loop and the `except` handler returns the records
accumulated so far. -/
def extract_all_pages_geo : List PageOCR → Nat → List Registro → List Registro
  | [], _, acc => acc
  | PageOCR.page l r :: rest, n, acc =>
    extract_all_pages_geo rest (n + 1) (acc ++ geo_page_records l r n)
  | PageOCR.raises :: _, _, acc => acc

/-- `PDFGeometricOCRExtractor.extract_all_pages` on a list of page
outcomes, numbering pages from 1. -/
def extract_all_pages (pages : List PageOCR) : List Registro :=
  extract_all_pages_geo pages 1 []

/-- Modelled from the spec: the page loop as claim C8 describes it — an
exception is treated as zero candidates for that page only and the loop
continues with the next page. -/
def extract_all_pages_claimed_go : List PageOCR → Nat → List Registro
  | [], _ => []
  | PageOCR.page l r :: rest, n =>
    geo_page_records l r n ++ extract_all_pages_claimed_go rest (n + 1)
  | PageOCR.raises :: rest, n => extract_all_pages_claimed_go rest (n + 1)

/-- Modelled from the spec: whole-run version of the claimed page loop. -/
def extract_all_pages_claimed (pages : List PageOCR) : List Registro :=
  extract_all_pages_claimed_go pages 1

theorem dedup_go_not_seen (k : Registro → String) :
    ∀ (l : List Registro) (seen : List String) (r : Registro),
      r ∈ dedup_go k seen l → k r ∉ seen := by
  intro l
  induction l with
  | nil => intro seen r h; simp [dedup_go] at h
  | cons x rest ih =>
    intro seen r h
    by_cases hx : k x ∈ seen
    · rw [dedup_go, if_pos hx] at h
      exact ih seen r h
    · rw [dedup_go, if_neg hx] at h
      rcases List.mem_cons.mp h with h | h
      · subst h; exact hx
      · intro hseen
        exact ih (k x :: seen) r h (List.mem_cons_of_mem _ hseen)

theorem dedup_go_nodup (k : Registro → String) :
    ∀ (l : List Registro) (seen : List String),
      ((dedup_go k seen l).map k).Nodup := by
  intro l
  induction l with
  | nil => intro seen; simp [dedup_go]
  | cons x rest ih =>
    intro seen
    by_cases hx : k x ∈ seen
    · rw [dedup_go, if_pos hx]
      exact ih seen
    · rw [dedup_go, if_neg hx]
      rw [List.map_cons, List.nodup_cons]
      refine ⟨?_, ih (k x :: seen)⟩
      intro hmem
      rcases List.mem_map.mp hmem with ⟨r, hr, hkr⟩
      exact dedup_go_not_seen k rest (k x :: seen) r hr (hkr ▸ List.mem_cons_self _ _)

theorem dedup_go_sublist (k : Registro → String) :
    ∀ (l : List Registro) (seen : List String),
      (dedup_go k seen l).Sublist l := by
  intro l
  induction l with
  | nil => intro seen; simp [dedup_go]
  | cons x rest ih =>
    intro seen
    by_cases hx : k x ∈ seen
    · rw [dedup_go, if_pos hx]
      exact (ih seen).cons x
    · rw [dedup_go, if_neg hx]
      exact (ih (k x :: seen)).cons₂ x

theorem dedup_go_covers (k : Registro → String) :
    ∀ (l : List Registro) (seen : List String) (r : Registro),
      r ∈ l → k r ∉ seen → k r ∈ (dedup_go k seen l).map k := by
  intro l
  induction l with
  | nil => intro seen r h; simp at h
  | cons x rest ih =>
    intro seen r hmem hns
    rcases List.mem_cons.mp hmem with h | h
    · subst h
      rw [dedup_go, if_neg hns, List.map_cons]
      exact List.mem_cons_self _ _
    · by_cases hx : k x ∈ seen
      · rw [dedup_go, if_pos hx]
        exact ih seen r h hns
      · rw [dedup_go, if_neg hx, List.map_cons]
        by_cases hk : k r = k x
        · rw [hk]; exact List.mem_cons_self _ _
        · refine List.mem_cons_of_mem _ (ih (k x :: seen) r h ?_)
          intro hc
          rcases List.mem_cons.mp hc with hc | hc
          · exact hk hc
          · exact hns hc

theorem dedup_go_first_seen (k : Registro → String) :
    ∀ (l : List Registro) (seen : List String) (r : Registro),
      r ∈ dedup_go k seen l →
      l.find? (fun x => k x == k r) = some r := by
  intro l
  induction l with
  | nil => intro seen r h; simp [dedup_go] at h
  | cons x rest ih =>
    intro seen r h
    by_cases hx : k x ∈ seen
    · rw [dedup_go, if_pos hx] at h
      have hner : k r ∉ seen := dedup_go_not_seen k rest seen r h
      have hne : (k x == k r) = false := by
        simp only [beq_eq_false_iff_ne, ne_eq]
        intro he
        exact hner (he ▸ hx)
      rw [List.find?_cons, hne]
      exact ih seen r h
    · rw [dedup_go, if_neg hx] at h
      rcases List.mem_cons.mp h with h | h
      · subst h
        rw [List.find?_cons, beq_self_eq_true]
      · have hner : k r ∉ k x :: seen := dedup_go_not_seen k rest (k x :: seen) r h
        have hne : (k x == k r) = false := by
          simp only [beq_eq_false_iff_ne, ne_eq]
          intro he
          exact hner (he ▸ List.mem_cons_self _ _)
        rw [List.find?_cons, hne]
        exact ih (k x :: seen) r h

theorem dedup_go_idem (k : Registro → String) :
    ∀ (l : List Registro) (seen : List String),
      dedup_go k seen (dedup_go k seen l) = dedup_go k seen l := by
  intro l
  induction l with
  | nil => intro seen; simp [dedup_go]
  | cons x rest ih =>
    intro seen
    by_cases hx : k x ∈ seen
    · rw [dedup_go, if_pos hx]
      exact ih seen
    · rw [dedup_go, if_neg hx]
      rw [dedup_go, if_neg hx]
      rw [ih (k x :: seen)]

/-- C6: both `deduplicate_data` variants (keyed on `nome ++ "_" ++ email`
in `limpeza_final_ocr.py`, keyed on `nome` in `pdf_clean_ocr.py`) are
idempotent: running the deduplicator on its own output returns the
output unchanged. -/
theorem C6_dedup_idempotent :
    ∀ data : List Registro,
      deduplicate_data (deduplicate_data data) = deduplicate_data data ∧
      deduplicate_data_clean_ocr (deduplicate_data_clean_ocr data) =
        deduplicate_data_clean_ocr data := by
  intro data
  exact ⟨dedup_go_idem record_key data [], dedup_go_idem (fun r => r.nome) data []⟩

/-- C5 (amended): the deduplicator keeps exactly one record per raw key
string `nome ++ "_" ++ email` — output keys are pairwise distinct, the
output is a sublist of the input, every input key is represented, and
each kept record is the first input record bearing its key. It does not
key on the spec's `NormalizedKey`. -/
theorem C5_dedup_one_per_raw_key :
    ∀ data : List Registro,
      ((deduplicate_data data).map record_key).Nodup ∧
      (deduplicate_data data).Sublist data ∧
      (∀ r ∈ data, record_key r ∈ (deduplicate_data data).map record_key) ∧
      (∀ r ∈ deduplicate_data data,
        data.find? (fun x => record_key x == record_key r) = some r) := by
  intro data
  refine ⟨dedup_go_nodup record_key data [], dedup_go_sublist record_key data [], ?_, ?_⟩
  · intro r hr
    exact dedup_go_covers record_key data [] r hr (by simp)
  · intro r hr
    exact dedup_go_first_seen record_key data [] r hr

/-- First record of the C5 counterexample pair. -/
def r_dup1 : Registro := { nome := "JOAO", email := "a@b.com" }

/-- Second record of the C5 counterexample pair: same name up to casing,
same email, so the spec's `NormalizedKey` coincides with `r_dup1`'s. -/
def r_dup2 : Registro := { nome := "Joao", email := "a@b.com" }

/-- C5 is false as stated: the code deduplicates on the raw
`nome ++ "_" ++ email` string, so two records that differ only in name
casing — hence share one `NormalizedKey` — are both kept. -/
theorem C5_counterexample :
    deduplicate_data [r_dup1, r_dup2] = [r_dup1, r_dup2] ∧
    normalized_key r_dup1 = normalized_key r_dup2 ∧
    r_dup1 ≠ r_dup2 := by
  refine ⟨by decide, by decide, by decide⟩

/-- Witness for C5: the amended theorem applied to the concrete
two-record batch. -/
theorem C5_witness :
    record_key r_dup1 ∈ (deduplicate_data [r_dup1, r_dup2]).map record_key ∧
    [r_dup1, r_dup2].find? (fun x => record_key x == record_key r_dup2) = some r_dup2 := by
  constructor
  · exact (C5_dedup_one_per_raw_key [r_dup1, r_dup2]).2.2.1 r_dup1 (by decide)
  · exact (C5_dedup_one_per_raw_key [r_dup1, r_dup2]).2.2.2 r_dup2 (by decide)

theorem ite_add_ite_split (b c : Bool) (x y : Int) :
    (if b then x + (if c then y else 0) else 0)
      = (if b then x else 0) + (if b && c then y else 0) := by
  cases b <;> cases c <;> simp

theorem siteScore_eq (tokens : List String) (site : Option String) :
    siteScore tokens site
      = (if truthy site && !(site.getD "" == "null")
            && !(site.getD "" == "Não Identificado") then 30 else 0)
        + (if (truthy site && !(site.getD "" == "null")
              && !(site.getD "" == "Não Identificado"))
              && !(tokens.any fun d => strContains (pyLower (site.getD "")) d)
           then 20 else 0) := by
  cases site with
  | none => simp [siteScore, truthy]
  | some s =>
    simp only [siteScore, truthy, Option.getD_some]
    exact ite_add_ite_split _ _ 30 20

theorem emailScore_eq (marks : List String) (email : Option String) :
    emailScore marks email
      = (if truthy email && !(email.getD "" == "null") then 10 else 0)
        + (if (truthy email && !(email.getD "" == "null"))
              && !(marks.any fun m => strContains (pyLower (email.getD "")) m)
           then 20 else 0) := by
  cases email with
  | none => simp [emailScore, truthy]
  | some e =>
    simp only [emailScore, truthy, Option.getD_some]
    exact ite_add_ite_split _ _ 10 20

theorem siteScore_nonneg (tokens : List String) (site : Option String) :
    0 ≤ siteScore tokens site := by
  cases site with
  | none => simp [siteScore]
  | some s =>
    simp only [siteScore]
    split
    · split <;> norm_num
    · norm_num

theorem emailScore_nonneg (marks : List String) (email : Option String) :
    0 ≤ emailScore marks email := by
  cases email with
  | none => simp [emailScore]
  | some e =>
    simp only [emailScore]
    split
    · split <;> norm_num
    · norm_num

theorem fieldScore_nonneg (v : Option String) : 0 ≤ fieldScore v := by
  simp only [fieldScore]
  split <;> norm_num

/-- Modelled from the spec, amended: the score as a clamped sum of six
independent bonuses, with the two "not a personal domain" bonuses read
as the code computes them — no deny-list token occurs as a substring of
the lower-cased site, and no personal marker such as `@gmail.` occurs as
a substring of the lower-cased email. -/
def tech_score_amended (tokens marks : List String) (l : Leiloeiro) : Int :=
  let siteOk := truthy l.site && !(l.site.getD "" == "null")
      && !(l.site.getD "" == "Não Identificado")
  let emailOk := truthy l.email && !(l.email.getD "" == "null")
  let siteClean := !(tokens.any fun d => strContains (pyLower (l.site.getD "")) d)
  let emailClean := !(marks.any fun m => strContains (pyLower (l.email.getD "")) m)
  min (max ((if siteOk then 30 else 0) + (if siteOk && siteClean then 20 else 0)
    + (if emailOk then 10 else 0) + (if emailOk && emailClean then 20 else 0)
    + (if truthy l.telefone && !(l.telefone.getD "" == "null") then 10 else 0)
    + (if truthy l.matricula && !(l.matricula.getD "" == "null") then 10 else 0)) 0) 100

/-- Modelled from the spec, as claim C1 states it: the +20 bonuses are
awarded when the site (respectively the email's domain) is not one of
the personal-email domains, read generously as a domain-suffix test
against the deny list. -/
def tech_score_claimed (l : Leiloeiro) : Int :=
  let siteOk := truthy l.site && !(l.site.getD "" == "null")
      && !(l.site.getD "" == "Não Identificado")
  let emailOk := truthy l.email && !(l.email.getD "" == "null")
  let sitePersonal := generic_domains.any fun d =>
    strEndsWith (pyLower (l.site.getD "")) d
  let emailPersonal := generic_domains.any fun d =>
    strEndsWith (pyLower (emailDomain (l.email.getD ""))) d
  min (max ((if siteOk then 30 else 0) + (if siteOk && !sitePersonal then 20 else 0)
    + (if emailOk then 10 else 0) + (if emailOk && !emailPersonal then 20 else 0)
    + (if truthy l.telefone then 10 else 0)
    + (if truthy l.matricula then 10 else 0)) 0) 100

theorem calc_eq_amended (tokens marks : List String) (l : Leiloeiro) :
    min (siteScore tokens l.site + emailScore marks l.email
        + fieldScore l.telefone + fieldScore l.matricula) 100
      = tech_score_amended tokens marks l := by
  have hs := siteScore_nonneg tokens l.site
  have he := emailScore_nonneg marks l.email
  have ht := fieldScore_nonneg l.telefone
  have hm := fieldScore_nonneg l.matricula
  rw [siteScore_eq, emailScore_eq] at *
  simp only [tech_score_amended, fieldScore]
  rw [max_eq_left (by omega)]
  congr 1
  omega

/-- C1 (amended): both `calcular_tech_score` variants equal the clamped
sum of independent bonuses +30/+20 (site), +10/+20 (email), +10 (phone),
+10 (registration number) — but the +20 bonuses test substring
containment of deny-list tokens in the whole site/email string, not
membership of the domain in the personal-domain list. -/
theorem C1_amended_scoring :
    ∀ l : Leiloeiro,
      calcular_tech_score l
        = tech_score_amended email_domains_final email_marks_final l ∧
      calcular_tech_score_everyone l
        = tech_score_amended email_domains_everyone email_marks_everyone l := by
  intro l
  exact ⟨calc_eq_amended email_domains_final email_marks_final l,
         calc_eq_amended email_domains_everyone email_marks_everyone l⟩

/-- Record refuting C1 as stated: a site whose domain is not a
personal-email domain, but which contains the deny-list token `ig` as a
substring (inside `artigos`). -/
def l_artigos : Leiloeiro := { site := some "www.artigos.com.br" }

/-- C1 is false as stated: at `l_artigos` the claim's arithmetic gives
30 + 20 = 50 (the domain is not personal), while the code awards only 30
because the token `ig` occurs inside `artigos`. -/
theorem C1_counterexample :
    calcular_tech_score l_artigos = 30 ∧
    calcular_tech_score_everyone l_artigos = 30 ∧
    tech_score_claimed l_artigos = 50 := by
  refine ⟨by decide, by decide, by decide⟩

/-- C3: every tech score produced by the three scoring functions lies in
[0, 100]. -/
theorem C3_tech_score_in_range :
    ∀ (l : Leiloeiro) (email site : String),
      (0 ≤ calcular_tech_score l ∧ calcular_tech_score l ≤ 100) ∧
      (0 ≤ calcular_tech_score_everyone l ∧ calcular_tech_score_everyone l ≤ 100) ∧
      (0 ≤ calculate_tech_score email site ∧ calculate_tech_score email site ≤ 100) := by
  intro l email site
  have hs1 := siteScore_nonneg email_domains_final l.site
  have hs2 := siteScore_nonneg email_domains_everyone l.site
  have he1 := emailScore_nonneg email_marks_final l.email
  have he2 := emailScore_nonneg email_marks_everyone l.email
  have ht := fieldScore_nonneg l.telefone
  have hm := fieldScore_nonneg l.matricula
  refine ⟨⟨le_min (by omega) (by norm_num), min_le_right _ _⟩,
          ⟨le_min (by omega) (by norm_num), min_le_right _ _⟩, ?_, ?_⟩
  · unfold calculate_tech_score
    split
    · norm_num
    · split
      · exact le_min (by norm_num) (by norm_num)
      · refine le_min ?_ (by norm_num)
        split
        · split <;> norm_num
        · norm_num
  · unfold calculate_tech_score
    split
    · norm_num
    · split
      · exact min_le_right _ _
      · exact min_le_right _ _

/-- C10: `calculate_tech_score` returns 0 whenever the email is empty,
whatever the site, and returns exactly 5 for a non-empty non-corporate
email, whatever the site. -/
theorem C10_final_score_email_gate :
    (∀ site : String, calculate_tech_score "" site = 0) ∧
    (∀ email site : String, email ≠ "" → is_corporate_email email = false →
      calculate_tech_score email site = 5) := by
  constructor
  · intro site
    simp [calculate_tech_score]
  · intro email site h1 h2
    unfold calculate_tech_score
    rw [if_neg (by simp [h1]), if_pos (by simp [h2])]
    norm_num

/-- Witness for C10: a concrete personal email with a non-empty site. -/
theorem C10_witness :
    "a@gmail.com" ≠ "" ∧ is_corporate_email "a@gmail.com" = false ∧
    calculate_tech_score "a@gmail.com" "https://www.x.com.br" = 5 :=
  ⟨by decide, by decide,
   C10_final_score_email_gate.2 "a@gmail.com" "https://www.x.com.br" (by decide) (by decide)⟩

/-- C2: category assignment is the first-match-wins cascade — no usable
site gives the offline category; otherwise a score above 80 gives the
large category, a score in [40, 80] the medium one (so exactly 80 is
medium), anything below 40 the small one; and the offline category is
assigned only when the site is absent (empty, or the sentinel
`Não Identificado` in `determine_category`). -/
theorem C2_category_order :
    (∀ (site : String) (ts : Int), (site = "Não Identificado" ∨ site = "") →
        determine_category site ts = "Offline/Sem Site") ∧
    (∀ (site : String) (ts : Int), site ≠ "Não Identificado" → site ≠ "" →
        80 < ts → determine_category site ts = "Gigante (Portal)") ∧
    (∀ (site : String) (ts : Int), site ≠ "Não Identificado" → site ≠ "" →
        40 ≤ ts → ts ≤ 80 → determine_category site ts = "Médio (Consolidado)") ∧
    (∀ (site : String) (ts : Int), site ≠ "Não Identificado" → site ≠ "" →
        ts < 40 → determine_category site ts = "Pequeno (Com Site)") ∧
    (∀ (site : String) (ts : Int), determine_category site ts = "Offline/Sem Site" →
        site = "Não Identificado" ∨ site = "") ∧
    (∀ l : Leiloeiro,
        ((classificar_step l).categoria = "Offline (Sem Site)" ↔ truthy l.site = false)) ∧
    (∀ l : Leiloeiro, truthy l.site = true → l.tech_score = 80 →
        (classificar_step l).categoria = "Médio (Consolidado)") := by
  refine ⟨?_, ?_, ?_, ?_, ?_, ?_, ?_⟩
  · intro site ts h
    rcases h with h | h <;> simp [determine_category, h]
  · intro site ts h1 h2 h3
    unfold determine_category
    rw [if_neg (by simp [h1, h2]), if_pos h3]
  · intro site ts h1 h2 h3 h4
    unfold determine_category
    rw [if_neg (by simp [h1, h2]), if_neg (by omega), if_pos (by omega)]
  · intro site ts h1 h2 h3
    unfold determine_category
    rw [if_neg (by simp [h1, h2]), if_neg (by omega), if_neg (by omega)]
  · intro site ts h
    by_contra hc
    push_neg at hc
    obtain ⟨h1, h2⟩ := hc
    unfold determine_category at h
    rw [if_neg (by simp [h1, h2])] at h
    split at h
    · exact absurd h (by decide)
    · split at h
      · exact absurd h (by decide)
      · exact absurd h (by decide)
  · intro l
    by_cases ht : truthy l.site = true
    · simp only [classificar_step]
      rw [if_neg (by simp [ht])]
      constructor
      · intro h
        split at h
        · simp at h
        · split at h <;> simp at h
      · intro h
        rw [ht] at h
        cases h
    · have ht' : truthy l.site = false := by
        revert ht
        cases truthy l.site <;> simp
      simp only [classificar_step]
      rw [if_pos (by simp [ht'])]
      simp [ht']
  · intro l ht hts
    simp only [classificar_step]
    rw [if_neg (by simp [ht]), if_neg (by omega), if_pos (by omega)]

/-- Witness for C2: a concrete record with a usable site and score
exactly 80 lands in the medium category under both classifiers. -/
theorem C2_witness :
    determine_category "https://www.x.com.br" 80 = "Médio (Consolidado)" ∧
    (classificar_step { site := some "https://www.x.com.br", tech_score := 80 }).categoria
      = "Médio (Consolidado)" :=
  ⟨C2_category_order.2.2.1 "https://www.x.com.br" 80 (by decide) (by decide)
      (by norm_num) (by norm_num),
   C2_category_order.2.2.2.2.2.2 { site := some "https://www.x.com.br", tech_score := 80 }
      (by decide) (by decide)⟩

/-- C9: the inclusive classifier sends every record without a truthy
site to the offline category with its tech score overwritten to 0, and
consequently every classified record in the offline category has tech
score 0. -/
theorem C9_offline_zero_score :
    (∀ l : Leiloeiro, truthy l.site = false →
        (classificar_inclusivo_step l).categoria = "Offline/Sem Site" ∧
        (classificar_inclusivo_step l).tech_score = 0) ∧
    (∀ (ls : List Leiloeiro) (r : Leiloeiro), r ∈ classificar_inclusivo ls →
        r.categoria = "Offline/Sem Site" → r.tech_score = 0) := by
  constructor
  · intro l h
    simp only [classificar_inclusivo_step]
    rw [if_pos (by simp [h])]
    exact ⟨rfl, rfl⟩
  · intro ls r hr hcat
    rcases List.mem_map.mp hr with ⟨x, _, rfl⟩
    by_cases ht : truthy x.site = true
    · simp only [classificar_inclusivo_step] at hcat
      rw [if_neg (by simp [ht])] at hcat
      split at hcat
      · simp at hcat
      · split at hcat <;> simp at hcat
    · have ht' : truthy x.site = false := by
        revert ht
        cases truthy x.site <;> simp
      simp only [classificar_inclusivo_step]
      rw [if_pos (by simp [ht'])]

/-- Witness for C9: a concrete siteless record with a previously
computed score of 77 is reclassified offline with score 0. -/
theorem C9_witness :
    (classificar_inclusivo_step { nome := "X", tech_score := 77 }).categoria
      = "Offline/Sem Site" ∧
    (classificar_inclusivo_step { nome := "X", tech_score := 77 }).tech_score = 0 :=
  C9_offline_zero_score.1 { nome := "X", tech_score := 77 } (by decide)

/-- Modelled from the spec: the main domain synthesized from an email —
the last two labels, or the last three when the top-level label is `br`
and the domain has at least three labels. -/
def main_domain_claimed (email : String) : String :=
  let parts := splitOnChar '.' (emailDomain email)
  if parts.getLastD "" = "br" ∧ 3 ≤ parts.length then
    String.intercalate "." (parts.drop (parts.length - 3))
  else String.intercalate "." (parts.drop (parts.length - 2))

/-- C4 (amended): an email is corporate exactly when it is non-empty and
its lower-cased domain does not END WITH any deny-list entry (a suffix
test, not membership); for a corporate email with no existing site and
at least two domain labels the synthesized site is `https://www.`
followed by the last two labels, or the last three when the top-level
label is `br`; in particular `contato@zukleiloes.com.br` gives
`https://www.zukleiloes.com.br`. -/
theorem C4_corporate_email_site :
    (∀ email : String, is_corporate_email email = true ↔
      (email ≠ "" ∧ ∀ g ∈ generic_domains,
        strEndsWith (pyLower (emailDomain email)) g = false)) ∧
    (∀ email : String, is_corporate_email email = true →
      2 ≤ (splitOnChar '.' (emailDomain email)).length →
      extract_site_from_email email none
        = "https://www." ++ main_domain_claimed email) ∧
    extract_site_from_email "contato@zukleiloes.com.br" none
      = "https://www.zukleiloes.com.br" := by
  refine ⟨?_, ?_, by decide⟩
  · intro email
    by_cases hb : email = ""
    · simp [is_corporate_email, hb]
    · simp [is_corporate_email, hb, List.any_eq_false]
  · intro email hc hlen
    have hne : email ≠ "" := by
      intro he
      rw [he] at hc
      simp [is_corporate_email] at hc
    simp only [extract_site_from_email, main_domain_claimed]
    rw [if_neg (by simp [truthy]), if_neg (by simp [hne]), if_neg (by simp [hc]),
        if_pos hlen]
    by_cases hbr : ((splitOnChar '.' (emailDomain email)).getLastD "" = "br"
        ∧ 3 ≤ (splitOnChar '.' (emailDomain email)).length)
    · rw [if_pos (by
        simp only [Bool.and_eq_true, beq_iff_eq, decide_eq_true_eq, ge_iff_le]
        exact ⟨hbr.1, hbr.2⟩), if_pos hbr]
    · rw [if_neg ?_, if_neg hbr]
      simp only [Bool.and_eq_true, beq_iff_eq, decide_eq_true_eq, ge_iff_le]
      exact fun hcc => hbr ⟨hcc.1, hcc.2⟩

/-- C4 is false as stated: `joao@mygmail.com` has domain `mygmail.com`,
which is not a member of the deny list, yet the code classifies the
email as personal because the domain merely ends with `gmail.com`. -/
theorem C4_counterexample :
    emailDomain "joao@mygmail.com" = "mygmail.com" ∧
    "mygmail.com" ∉ generic_domains ∧
    is_corporate_email "joao@mygmail.com" = false := by
  refine ⟨by decide, by decide, by decide⟩

/-- Witness for C4: the amended site-synthesis rule applied to the
spec's own example email. -/
theorem C4_witness :
    is_corporate_email "contato@zukleiloes.com.br" = true ∧
    extract_site_from_email "contato@zukleiloes.com.br" none
      = "https://www." ++ main_domain_claimed "contato@zukleiloes.com.br" :=
  ⟨by decide,
   C4_corporate_email_site.2.1 "contato@zukleiloes.com.br" (by decide) (by decide)⟩

/-- C7 (amended): the sample line yields exactly one candidate with the
source casing preserved — name `"JOAO DA SILVA"`, not `"Joao Da Silva"` —
and email `joao@meudominio.com.br`; and the capitalization policy of
`clean_name` title-cases the cleaned name exactly when it is fully
lower-case, preserving the source casing otherwise. -/
theorem C7_line_extraction :
    extract_leiloeiros_from_text "JOAO DA SILVA 1234 joao@meudominio.com.br"
      = [{ nome := "JOAO DA SILVA", email := "joao@meudominio.com.br",
           email_corporativo := true, site := "https://www.meudominio.com.br",
           fonte := "pdf_direto",
           linha_original := "JOAO DA SILVA 1234 joao@meudominio.com.br" }] ∧
    (∀ s : String, clean_name s =
      if pyIslower (clean_name_pre s) then title_case_words (clean_name_pre s)
      else clean_name_pre s) := by
  constructor
  · decide
  · intro s
    by_cases h0 : s = ""
    · subst h0
      decide
    · simp only [clean_name, title_case_words]
      rw [if_neg (by simp [h0])]
      by_cases hl : pyIslower (clean_name_pre s) = true
      · have hnne : clean_name_pre s ≠ "" := by
          intro he
          rw [he] at hl
          simp [pyIslower] at hl
        rw [if_pos (by simp [hnne, hl]), if_pos hl]
      · have hl' : pyIslower (clean_name_pre s) = false := by
          revert hl
          cases pyIslower (clean_name_pre s) <;> simp
        rw [if_neg (by simp [hl']), if_neg (by simp [hl'])]

/-- C7 is false as stated: the candidate's name keeps the upper-case
source casing `"JOAO DA SILVA"`; it is not the title-cased
`"Joao Da Silva"` the scenario asserts. -/
theorem C7_counterexample :
    (extract_leiloeiros_from_text "JOAO DA SILVA 1234 joao@meudominio.com.br").map
        Candidato.nome = ["JOAO DA SILVA"] ∧
    "JOAO DA SILVA" ≠ "Joao Da Silva" := by
  refine ⟨by decide, by decide⟩

theorem extract_all_pages_geo_no_raises :
    ∀ (pages : List PageOCR) (n : Nat) (acc : List Registro),
      PageOCR.raises ∉ pages →
      extract_all_pages_geo pages n acc
        = acc ++ extract_all_pages_claimed_go pages n := by
  intro pages
  induction pages with
  | nil =>
    intro n acc _
    simp [extract_all_pages_geo, extract_all_pages_claimed_go]
  | cons p rest ih =>
    intro n acc h
    cases p with
    | page l r =>
      simp only [extract_all_pages_geo, extract_all_pages_claimed_go]
      rw [ih (n + 1) _ (fun hc => h (List.mem_cons_of_mem _ hc))]
      rw [List.append_assoc]
    | raises => exact absurd (List.mem_cons_self _ _) h

/-- C8 (amended): a page whose OCR text is empty contributes zero
candidates and the loop continues with the next page; but an exception
while processing a page ends the whole page loop — the handler returns
the records accumulated from earlier pages (the run does not crash),
and the remaining pages are not processed in that pass. On exception-free
runs the loop agrees with the per-page-isolation reading of the claim. -/
theorem C8_page_failure_semantics :
    (∀ (rest : List PageOCR) (n : Nat) (acc : List Registro),
        extract_all_pages_geo (PageOCR.page "" "" :: rest) n acc
          = extract_all_pages_geo rest (n + 1) acc) ∧
    (∀ (rest : List PageOCR) (n : Nat) (acc : List Registro),
        extract_all_pages_geo (PageOCR.raises :: rest) n acc = acc) ∧
    (∀ pages : List PageOCR, PageOCR.raises ∉ pages →
        extract_all_pages pages = extract_all_pages_claimed pages) := by
  refine ⟨?_, ?_, ?_⟩
  · intro rest n acc
    simp only [extract_all_pages_geo]
    have h : geo_page_records "" "" n = [] := rfl
    rw [h, List.append_nil]
  · intro rest n acc
    rfl
  · intro pages h
    have hmain := extract_all_pages_geo_no_raises pages 1 [] h
    simpa [extract_all_pages, extract_all_pages_claimed] using hmain

/-- Page list refuting C8 as stated: an exception on page 1 followed by
a perfectly readable page 2. -/
def pages_cex : List PageOCR := [PageOCR.raises, PageOCR.page "ABCDEF" ""]

/-- C8 is false as stated: with an exception on page 1, the code returns
no records at all, while the claimed per-page isolation would still
deliver page 2's candidate. -/
theorem C8_counterexample :
    extract_all_pages pages_cex = [] ∧
    extract_all_pages_claimed pages_cex
      = [{ nome := "ABCDEF", email := "", pagina := 2, fonte := "pdf_geometric_ocr" }] := by
  refine ⟨by decide, by decide⟩

/-- Witness for C8: on an exception-free run the loop agrees with the
claimed semantics. -/
theorem C8_witness :
    PageOCR.raises ∉ [PageOCR.page "ABCDEF" ""] ∧
    extract_all_pages [PageOCR.page "ABCDEF" ""]
      = extract_all_pages_claimed [PageOCR.page "ABCDEF" ""] :=
  ⟨by decide, C8_page_failure_semantics.2.2 [PageOCR.page "ABCDEF" ""] (by decide)⟩

end MapaLeiloeiros
